import Mathlib

/-!
Shallow embedding of the order-lifecycle and cart/price caching core of the
OnlineShop repository (app/database/requests.py, app/database/models.py,
app/handlers/executor_handlers.py), together with proofs of the spec's
claims about it.

The relational store is modelled as lists of user and order records; the
Redis cache cells are modelled by the values the code reads and writes:
a cart hash field is an `Option String` (`hget` returns the stored string
or `None`), the `prices` hash is an association list from item id to price,
and a `category:<id>:items` hash is an association list from item id to the
JSON snapshot the code stores.  Every `async` database function becomes a
pure function from the state it reads to the state it writes; the timed
sleeps of the two background tasks are dropped and only the post-wake
re-check logic is kept.  Python functions that can raise return `Option`.
-/

namespace OnlineShop

/-! ### Settings (defaults in app/settings/settings.py) -/

def ORDER_STATUS_PENDING_PAYMENT : String := "pending_payment"

def ORDER_STATUS_AWAITING_CONFIRMATION : String := "awaiting_executor_confirmation"

def ORDER_STATUS_IN_PROGRESS : String := "in_progress"

def ORDER_STATUS_COMPLETED : String := "completed"

def ORDER_STATUS_CANCELLED : String := "cancelled"

def CART_TTL : Nat := 3600

def ITEMS_TTL : Nat := 3600

def PAYMENT_TIMEOUT : Nat := 600

/-! ### Python integer parsing, `int(str(x).strip())` -/

/-- Characters `str.strip()` removes (ASCII whitespace). -/
def pyIsSpace (c : Char) : Bool :=
  c == ' ' || c == '\t' || c == '\n' || c == '\r' || c == '\x0b' || c == '\x0c'

/-- `str.strip()` on a character list: drop whitespace from both ends. -/
def pyStripChars (cs : List Char) : List Char :=
  ((cs.dropWhile pyIsSpace).reverse.dropWhile pyIsSpace).reverse

/-- Value of a nonempty all-digit character list, else `none`. -/
def decDigits? (cs : List Char) : Option Nat :=
  if cs = [] then none
  else if cs.all Char.isDigit then
    some (cs.foldl (fun a c => 10 * a + (c.toNat - 48)) 0)
  else none

/-- Models Python `int(s.strip())`: strips whitespace, then an optional sign
followed by decimal digits; `none` models the `ValueError` the callers turn
into a default. -/
def pyInt? (s : String) : Option Int :=
  match pyStripChars s.toList with
  | [] => none
  | c :: cs =>
    if c == '-' then (decDigits? cs).map (fun n => -(n : Int))
    else if c == '+' then (decDigits? cs).map (fun n => (n : Int))
    else (decDigits? (c :: cs)).map (fun n => (n : Int))

/-! ### Cart hash cells (requests.py: add_to_cart, get_cart_item_qty)

A cell is the value of one `cart:<user>` hash field: `none` when `hget`
returns `None`, otherwise the stored string. -/

/-- The shared read logic of `add_to_cart` and `get_cart_item_qty`:
`if qty: try: int(str(qty).strip()) except: 0 else: 0`.  A missing field and
the falsy empty string give 0, a malformed value gives 0. -/
def readStoredQty (cell : Option String) : Int :=
  match cell with
  | none => 0
  | some s =>
    if s == "" then 0
    else match pyInt? s with
      | some v => v
      | none => 0

/-- `get_cart_item_qty` (requests.py:240-270): read one cart field, defaulting
to 0 on a missing or malformed value.  The Redis-error branches also return 0
and are absorbed by totality. -/
def get_cart_item_qty (cell : Option String) : Int :=
  readStoredQty cell

/-- `add_to_cart` (requests.py:191-237): read the current quantity (same
defaulting), clamp `current + qty` at 10, store `str(new_qty)` and refresh
the TTL (the TTL refresh does not change the stored value). -/
def add_to_cart (cell : Option String) (qty : Int) : Option String :=
  some (toString (min (readStoredQty cell + qty) 10))

/-! ### Items and the price / catalog caches -/

/-- An `items` row (models.py: Item). -/
structure Item where
  id : Nat
  category_id : Nat
  name : String
  description : Option String
  price : Int
deriving DecidableEq

/-- `update_prices` (requests.py:152-186): load all items; when there are
none, log a warning and return with the cache untouched; otherwise delete the
`prices` key and bulk-write `{str(item.id): str(item.price)}`.  Item ids are
primary keys, so the dict comprehension is the one-to-one mapping below. -/
def update_prices (storeItems : List Item) (prices : List (Nat × Int)) :
    List (Nat × Int) :=
  if storeItems = [] then prices
  else storeItems.map (fun it => (it.id, it.price))

/-- Modelled from the spec words for §4.1: "a cache mapping item-id→price
... over exactly the items read from the durable store". -/
def specPriceMapping (storeItems : List Item) : List (Nat × Int) :=
  storeItems.map (fun it => (it.id, it.price))

/-- The JSON snapshot `get_items_by_category` stores per item: id, name,
description and price; the category id is carried by the hash key. -/
structure ItemSnapshot where
  id : Nat
  name : String
  description : Option String
  price : Int
deriving DecidableEq

def snapshotOfItem (it : Item) : ItemSnapshot :=
  { id := it.id, name := it.name, description := it.description,
    price := it.price }

/-- Deserializing one cached snapshot back into an `Item`, with the
category id taken from the queried key (requests.py:117-125). -/
def itemOfSnapshot (category_id : Nat) (s : ItemSnapshot) : Item :=
  { id := s.id, category_id := category_id, name := s.name,
    description := s.description, price := s.price }

/-- The sort key of `items.sort(key=lambda x: x.id)`. -/
def idLe (a b : Item) : Prop := a.id ≤ b.id

instance : DecidableRel idLe := fun a b => Nat.decLe a.id b.id

instance : IsTotal Item idLe := ⟨fun a b => Nat.le_total a.id b.id⟩

instance : IsTrans Item idLe := ⟨fun _ _ _ h1 h2 => Nat.le_trans h1 h2⟩

/-- Result of `get_items_by_category`: the returned list and the cache write
it performs, if any (the snapshot mapping together with the TTL passed to
`expire`). -/
structure CatalogResult where
  items : List Item
  cacheWrite : Option (List (Nat × ItemSnapshot) × Nat)
deriving DecidableEq

/-- `get_items_by_category` (requests.py:98-149).  `hgetall` yields the
cached hash (`cached ≠ []` is the truthiness test on the dict); on a hit the
snapshots are deserialized and sorted by id; on a miss the store is filtered
by category, and the result is cached with `ITEMS_TTL` only when non-empty.
The cache hash is unordered, so `cached` is quantified over all orders. -/
def get_items_by_category (category_id : Nat)
    (cached : List (Nat × ItemSnapshot)) (store : List Item) : CatalogResult :=
  if cached ≠ [] then
    { items := List.insertionSort idLe
        (cached.map (fun p => itemOfSnapshot category_id p.2)),
      cacheWrite := none }
  else if store.filter (fun it => it.category_id == category_id) = [] then
    { items := store.filter (fun it => it.category_id == category_id),
      cacheWrite := none }
  else
    { items := store.filter (fun it => it.category_id == category_id),
      cacheWrite := some
        ((store.filter (fun it => it.category_id == category_id)).map
          (fun it => (it.id, snapshotOfItem it)), ITEMS_TTL) }

/-! ### The relational store: users and orders -/

/-- A `users` row (models.py: User). -/
structure User where
  id : Nat
  tg_id : Int
  role : String
deriving DecidableEq

/-- An `orders` row (models.py: Order).  `created_at` and `expires_at` are
omitted: after the watchdog's sleep they are not read by any modelled
operation. -/
structure Order where
  id : Nat
  user_id : Nat
  total_sum : Int
  status : String
  executor_id : Option Nat
  payment_confirmed_by_user : Bool
deriving DecidableEq

/-- The relational store state. -/
structure DB where
  users : List User
  orders : List Order
deriving DecidableEq

/-- `select(User).where(User.tg_id == tg_id)` via `session.scalar`. -/
def findUserByTg (db : DB) (tg : Int) : Option User :=
  db.users.find? (fun u => u.tg_id == tg)

/-- `select(Order).where(Order.id == order_id)` via `session.scalar`. -/
def findOrder (db : DB) (oid : Nat) : Option Order :=
  db.orders.find? (fun o => o.id == oid)

/-- Autoincrement primary key for a fresh `users` row. -/
def nextUserId (db : DB) : Nat :=
  db.users.foldl (fun m u => max m u.id) 0 + 1

/-- `set_user` (requests.py:52-69): look the user up by `tg_id`; when absent,
insert a row with the given role and return `True`; when present, return
`False` without touching the store. -/
def set_user (db : DB) (tg : Int) (role : String) : DB × Bool :=
  match findUserByTg db tg with
  | some _ => (db, false)
  | none =>
    let newUser : User := { id := nextUserId db, tg_id := tg, role := role }
    ({ db with users := db.users ++ [newUser] }, true)

/-- An SQL `UPDATE ... WHERE Order.id == oid` / ORM attribute write: apply
`g` to the row with the given primary key. -/
def updateOrderById (db : DB) (oid : Nat) (g : Order → Order) : DB :=
  { db with orders := db.orders.map (fun o =>
      if o.id == oid then g o else o) }

/-- `update_order_status` (requests.py:564-572). -/
def update_order_status (db : DB) (oid : Nat) (new_status : String) : DB :=
  updateOrderById db oid (fun o => { o with status := new_status })

/-- `confirm_user_payment` (requests.py:575-583): sets the flag with no
check of the order's current status. -/
def confirm_user_payment (db : DB) (oid : Nat) : DB :=
  updateOrderById db oid (fun o => { o with payment_confirmed_by_user := true })

/-- The subquery `select(Order.executor_id).where(Order.status ==
ORDER_STATUS_IN_PROGRESS)`, NULLs included. -/
def inProgressExecutorIds (db : DB) : List (Option Nat) :=
  (db.orders.filter (fun o => o.status == ORDER_STATUS_IN_PROGRESS)).map
    (fun o => o.executor_id)

/-- SQL `v NOT IN (subquery)` under three-valued logic: true exactly when no
element is NULL and none equals `v`. -/
def sqlNotIn (v : Nat) (l : List (Option Nat)) : Bool :=
  l.all (fun x => match x with | none => false | some y => y != v)

/-- The free-executor query of `assign_executor` (requests.py:601-612):
first user with role "Executor" whose id is not among the executor ids of
in-progress orders (`.limit(1)` and an unordered select: first match in row
order). -/
def findFreeExecutor (db : DB) : Option User :=
  db.users.find? (fun u =>
    u.role == "Executor" && sqlNotIn u.id (inProgressExecutorIds db))

/-- `assign_executor` (requests.py:588-624): when no free executor exists,
return `False` with nothing written; otherwise load the order, set its
executor and status, commit, return `True`.  The order is loaded without a
`None` check, so a missing order raises (`none` here) after a free executor
was found.  No check of the order's current status or current executor is
made. -/
def assign_executor (db : DB) (oid : Nat) : Option (DB × Bool) :=
  match findFreeExecutor db with
  | none => some (db, false)
  | some u =>
    match findOrder db oid with
    | none => none
    | some _ =>
      some (updateOrderById db oid (fun o =>
        { o with executor_id := some u.id,
                 status := ORDER_STATUS_AWAITING_CONFIRMATION }), true)

/-- `retry_assign_executor` (requests.py:627-655) after its 300-second
sleep: one further `assign_executor`; on failure the order is cancelled
(again with no check of its current status).  The notifications do not
change the store. -/
def retry_assign_executor (db : DB) (oid : Nat) : Option DB :=
  match assign_executor db oid with
  | none => none
  | some (db2, true) => some db2
  | some (db2, false) =>
    some (update_order_status db2 oid ORDER_STATUS_CANCELLED)

/-- `check_payment_timeout` (requests.py:699-756) after its sleep: re-read
the order; when it is gone do nothing; cancel exactly when the status is
still `pending_payment` and the user has not confirmed payment; otherwise do
nothing.  The notification does not change the store. -/
def check_payment_timeout (db : DB) (oid : Nat) : DB :=
  match findOrder db oid with
  | none => db
  | some o =>
    if o.status == ORDER_STATUS_PENDING_PAYMENT
        && !o.payment_confirmed_by_user then
      update_order_status db oid ORDER_STATUS_CANCELLED
    else db

/-- `confirm_payment` (executor_handlers.py:54-118): after checking that the
order exists and is assigned to the acting executor, set the status to
`in_progress` — the current status is not checked. -/
def executor_confirm_payment (db : DB) (executor_tg : Int) (oid : Nat) : DB :=
  match findOrder db oid with
  | none => db
  | some o =>
    match findUserByTg db executor_tg with
    | none => db
    | some ex =>
      if o.executor_id == some ex.id then
        update_order_status db oid ORDER_STATUS_IN_PROGRESS
      else db

/-! ### Spec-level predicates -/

/-- The spec's "user with role Executor free of in_progress orders". -/
def isFreeExecutor (db : DB) (u : User) : Prop :=
  u.role = "Executor" ∧
    ∀ o ∈ db.orders, o.status = ORDER_STATUS_IN_PROGRESS →
      o.executor_id ≠ some u.id

instance (db : DB) (u : User) : Decidable (isFreeExecutor db u) := by
  unfold isFreeExecutor; infer_instance

/-- The reachable-state invariant that every in-progress order has an
assigned executor (the only transition into `in_progress`, the executor's
payment confirmation, requires the order to be assigned to that executor). -/
def inProgressAssigned (db : DB) : Prop :=
  ∀ o ∈ db.orders, o.status = ORDER_STATUS_IN_PROGRESS → o.executor_id ≠ none

instance (db : DB) : Decidable (inProgressAssigned db) := by
  unfold inProgressAssigned; infer_instance

/-- Monotonicity of the payment flag between two store states: no order's
confirmed flag is reset. -/
def FlagMono (db db2 : DB) : Prop :=
  ∀ oid o o2, findOrder db oid = some o → findOrder db2 oid = some o2 →
    o.payment_confirmed_by_user = true → o2.payment_confirmed_by_user = true

/-! ### Concrete store states used as witnesses and counterexamples -/

/-- A cancelled (terminal), unconfirmed order of client 2 with a free
executor present. -/
def dbTerminal : DB :=
  { users := [{ id := 1, tg_id := 100, role := "Executor" },
              { id := 2, tg_id := 200, role := "Client" }],
    orders := [{ id := 1, user_id := 2, total_sum := 500,
                 status := ORDER_STATUS_CANCELLED, executor_id := none,
                 payment_confirmed_by_user := false }] }

/-- A cancelled (terminal) order still assigned to executor 1
(tg 100), as left behind when the executor declines payment. -/
def dbTerminalAssigned : DB :=
  { users := [{ id := 1, tg_id := 100, role := "Executor" },
              { id := 2, tg_id := 200, role := "Client" }],
    orders := [{ id := 1, user_id := 2, total_sum := 500,
                 status := ORDER_STATUS_CANCELLED, executor_id := some 1,
                 payment_confirmed_by_user := true }] }

/-- A pending, unconfirmed order inside the payment window. -/
def dbPending : DB :=
  { users := [{ id := 1, tg_id := 100, role := "Executor" },
              { id := 2, tg_id := 200, role := "Client" }],
    orders := [{ id := 1, user_id := 2, total_sum := 500,
                 status := ORDER_STATUS_PENDING_PAYMENT, executor_id := none,
                 payment_confirmed_by_user := false }] }

/-- The pending order of `dbPending`. -/
def orderPending : Order :=
  { id := 1, user_id := 2, total_sum := 500,
    status := ORDER_STATUS_PENDING_PAYMENT, executor_id := none,
    payment_confirmed_by_user := false }

/-- Order 1 is assigned to executor 1 (awaiting confirmation) while
executor 1 is also busy with in-progress order 2; executor 2 is free. -/
def dbReassign : DB :=
  { users := [{ id := 1, tg_id := 100, role := "Executor" },
              { id := 2, tg_id := 200, role := "Executor" },
              { id := 3, tg_id := 300, role := "Client" },
              { id := 4, tg_id := 400, role := "Client" }],
    orders := [{ id := 1, user_id := 3, total_sum := 500,
                 status := ORDER_STATUS_AWAITING_CONFIRMATION,
                 executor_id := some 1, payment_confirmed_by_user := true },
               { id := 2, user_id := 4, total_sum := 300,
                 status := ORDER_STATUS_IN_PROGRESS, executor_id := some 1,
                 payment_confirmed_by_user := true }] }

/-- Executor 2 of `dbReassign`. -/
def userExec2 : User := { id := 2, tg_id := 200, role := "Executor" }

/-- Order 1 of `dbReassign`: awaiting confirmation, assigned to executor 1. -/
def orderAssigned1 : Order :=
  { id := 1, user_id := 3, total_sum := 500,
    status := ORDER_STATUS_AWAITING_CONFIRMATION, executor_id := some 1,
    payment_confirmed_by_user := true }

/-- Two catalog snapshots, cached out of id order. -/
def snapA : ItemSnapshot := { id := 1, name := "a", description := none, price := 10 }

def snapB : ItemSnapshot := { id := 2, name := "b", description := none, price := 20 }

/-- A store row in category 5. -/
def itemC : Item :=
  { id := 3, category_id := 5, name := "c", description := none, price := 30 }

/-! ### Helper lemmas -/

theorem find?_map_preserving (l : List Order) (oid2 : Nat) (f : Order → Order)
    (hf : ∀ o, (f o).id = o.id) :
    (l.map f).find? (fun o => o.id == oid2) =
      (l.find? (fun o => o.id == oid2)).map f := by
  induction l with
  | nil => rfl
  | cons o rest ih =>
    rw [List.map_cons]
    simp only [List.find?]
    rw [hf o]
    cases h : (o.id == oid2) with
    | true => rfl
    | false => exact ih

theorem findOrder_updateOrderById (db : DB) (oid oid2 : Nat)
    (g : Order → Order) (hg : ∀ o, (g o).id = o.id) :
    findOrder (updateOrderById db oid g) oid2 =
      (findOrder db oid2).map (fun o => if o.id == oid then g o else o) := by
  unfold findOrder updateOrderById
  exact find?_map_preserving db.orders oid2 _ (fun o => by
    by_cases h : (o.id == oid) = true <;> simp [h, hg])

theorem findOrder_id (db : DB) (oid : Nat) (o : Order)
    (h : findOrder db oid = some o) : o.id = oid := by
  rw [findOrder] at h
  have := List.find?_some h
  simpa using this

theorem findOrder_updateOrderById_self (db : DB) (oid : Nat)
    (g : Order → Order) (hg : ∀ o, (g o).id = o.id) (o : Order)
    (h : findOrder db oid = some o) :
    findOrder (updateOrderById db oid g) oid = some (g o) := by
  rw [findOrder_updateOrderById db oid oid g hg, h]
  simp [findOrder_id db oid o h]

theorem findOrder_updateOrderById_of_ne (db : DB) (oid oid2 : Nat)
    (g : Order → Order) (hg : ∀ o, (g o).id = o.id) (h : oid2 ≠ oid) :
    findOrder (updateOrderById db oid g) oid2 = findOrder db oid2 := by
  rw [findOrder_updateOrderById db oid oid2 g hg]
  cases ho : findOrder db oid2 with
  | none => rfl
  | some o => simp [findOrder_id db oid2 o ho, h]

theorem users_updateOrderById (db : DB) (oid : Nat) (g : Order → Order) :
    (updateOrderById db oid g).users = db.users := rfl

theorem flagMono_of_orders_eq (db db2 : DB) (h : db2.orders = db.orders) :
    FlagMono db db2 := by
  intro oid o o2 h1 h2 hf
  rw [findOrder, h] at h2
  rw [findOrder] at h1
  rw [h1] at h2
  cases h2
  exact hf

theorem flagMono_updateOrderById (db : DB) (oid : Nat) (g : Order → Order)
    (hg : ∀ o, (g o).id = o.id)
    (hflag : ∀ o, o.payment_confirmed_by_user = true →
      (g o).payment_confirmed_by_user = true) :
    FlagMono db (updateOrderById db oid g) := by
  intro oid2 o o2 h1 h2 hf
  rw [findOrder_updateOrderById db oid oid2 g hg, h1] at h2
  rw [Option.map_some'] at h2
  by_cases h : (o.id == oid) = true
  · rw [if_pos h, Option.some.injEq] at h2
    subst h2
    exact hflag o hf
  · rw [if_neg h, Option.some.injEq] at h2
    subst h2
    exact hf

theorem freeB_isFree (db : DB) (u : User)
    (h : (u.role == "Executor" && sqlNotIn u.id (inProgressExecutorIds db)) = true) :
    isFreeExecutor db u := by
  rw [Bool.and_eq_true] at h
  obtain ⟨hrole, hnot⟩ := h
  refine ⟨by simpa using hrole, ?_⟩
  intro o ho hst hex
  rw [sqlNotIn, List.all_eq_true] at hnot
  have hmem : o.executor_id ∈ inProgressExecutorIds db := by
    rw [inProgressExecutorIds]
    exact List.mem_map_of_mem _ (List.mem_filter.mpr ⟨ho, by simp [hst]⟩)
  have := hnot _ hmem
  rw [hex] at this
  simp at this

theorem isFree_freeB (db : DB) (u : User) (hinv : inProgressAssigned db)
    (h : isFreeExecutor db u) :
    (u.role == "Executor" && sqlNotIn u.id (inProgressExecutorIds db)) = true := by
  obtain ⟨hrole, hfree⟩ := h
  rw [Bool.and_eq_true]
  refine ⟨by simpa using hrole, ?_⟩
  rw [sqlNotIn, List.all_eq_true]
  intro x hx
  rw [inProgressExecutorIds] at hx
  obtain ⟨o, homem, hoex⟩ := List.mem_map.mp hx
  have hof := List.mem_filter.mp homem
  have hst : o.status = ORDER_STATUS_IN_PROGRESS := by simpa using hof.2
  cases x with
  | none => exact absurd hoex (hinv o hof.1 hst)
  | some y =>
    simp only [bne_iff_ne, ne_eq]
    intro hyu
    exact hfree o hof.1 hst (by rw [hoex, hyu])

theorem findFreeExecutor_spec_none (db : DB)
    (h : ∀ u ∈ db.users, ¬ isFreeExecutor db u) :
    findFreeExecutor db = none := by
  rw [findFreeExecutor, List.find?_eq_none]
  intro u hu hb
  exact h u hu (freeB_isFree db u hb)

theorem findFreeExecutor_spec_some (db : DB) (hinv : inProgressAssigned db)
    (h : ∃ u ∈ db.users, isFreeExecutor db u) :
    ∃ u, findFreeExecutor db = some u ∧ u ∈ db.users ∧ isFreeExecutor db u := by
  obtain ⟨u, hu, hfree⟩ := h
  cases hfind : findFreeExecutor db with
  | none =>
    rw [findFreeExecutor, List.find?_eq_none] at hfind
    exact absurd (isFree_freeB db u hinv hfree) (hfind u hu)
  | some v =>
    have hfind2 : db.users.find? (fun u =>
        u.role == "Executor" && sqlNotIn u.id (inProgressExecutorIds db)) =
          some v := by
      rw [findFreeExecutor] at hfind
      exact hfind
    have hb := List.find?_some hfind2
    exact ⟨v, rfl, List.mem_of_find?_eq_some hfind2,
      freeB_isFree db v (by simpa using hb)⟩

theorem assign_executor_found (db : DB) (oid : Nat) (u : User) (o : Order)
    (hu : findFreeExecutor db = some u) (ho : findOrder db oid = some o) :
    assign_executor db oid =
      some (updateOrderById db oid (fun x =>
        { x with executor_id := some u.id,
                 status := ORDER_STATUS_AWAITING_CONFIRMATION }), true) := by
  unfold assign_executor
  rw [hu, ho]

theorem assign_executor_failed (db : DB) (oid : Nat) (dbx : DB)
    (h : assign_executor db oid = some (dbx, false)) : dbx = db := by
  unfold assign_executor at h
  cases hf : findFreeExecutor db with
  | none =>
    rw [hf] at h
    cases h
    rfl
  | some u =>
    rw [hf] at h
    cases ho : findOrder db oid with
    | none =>
      rw [ho] at h
      cases h
    | some o =>
      rw [ho] at h
      simp at h

theorem flagMono_assign (db : DB) (oid : Nat) (dbx : DB) (b : Bool)
    (h : assign_executor db oid = some (dbx, b)) : FlagMono db dbx := by
  unfold assign_executor at h
  cases hf : findFreeExecutor db with
  | none =>
    rw [hf] at h
    cases h
    exact flagMono_of_orders_eq db db rfl
  | some u =>
    rw [hf] at h
    cases ho : findOrder db oid with
    | none =>
      rw [ho] at h
      cases h
    | some o =>
      rw [ho] at h
      cases h
      exact flagMono_updateOrderById db oid _ (fun x => rfl) (fun x hx => hx)

theorem check_payment_timeout_none (db : DB) (oid : Nat)
    (ho : findOrder db oid = none) : check_payment_timeout db oid = db := by
  unfold check_payment_timeout
  rw [ho]

theorem check_payment_timeout_some (db : DB) (oid : Nat) (o : Order)
    (ho : findOrder db oid = some o) :
    check_payment_timeout db oid =
      if o.status == ORDER_STATUS_PENDING_PAYMENT
          && !o.payment_confirmed_by_user then
        update_order_status db oid ORDER_STATUS_CANCELLED
      else db := by
  unfold check_payment_timeout
  rw [ho]

/-! ### Cart arithmetic lemmas -/

theorem readStored_parse (s : String) (v : Int) (hp : pyInt? s = some v) :
    readStoredQty (some s) = v := by
  have hne : s ≠ "" := by
    intro he
    have h0 : pyInt? "" = none := by decide
    rw [he, h0] at hp
    cases hp
  have hs : ¬ ((s == "") = true) := by simpa using hne
  simp only [readStoredQty, if_neg hs, hp]

theorem readStored_malformed (s : String) (hp : pyInt? s = none) :
    readStoredQty (some s) = 0 := by
  by_cases hs : (s == "") = true
  · simp only [readStoredQty, if_pos hs]
  · simp only [readStoredQty, if_neg hs, hp]

theorem readStored_roundtrip_fin : ∀ k : Fin 11,
    readStoredQty (some (toString ((k : Nat) : Int))) = ((k : Nat) : Int) := by
  decide

theorem readStored_roundtrip (v : Int) (h0 : 0 ≤ v) (h10 : v ≤ 10) :
    readStoredQty (some (toString v)) = v := by
  obtain ⟨n, rfl⟩ := Int.eq_ofNat_of_zero_le h0
  have hn : n ≤ 10 := by exact_mod_cast h10
  exact readStored_roundtrip_fin ⟨n, by omega⟩

theorem add_fold_from (qs : List Int) : ∀ v : Int, (∀ q ∈ qs, 0 ≤ q) →
    0 ≤ v → v ≤ 10 →
    readStoredQty (qs.foldl add_to_cart (some (toString v))) =
      min 10 (v + qs.sum) := by
  induction qs with
  | nil =>
    intro v _ h0 h10
    rw [List.foldl_nil, readStored_roundtrip v h0 h10, List.sum_nil, add_zero,
      min_eq_right h10]
  | cons q qs ih =>
    intro v hq h0 h10
    have hq0 : 0 ≤ q := hq q (List.mem_cons_self q qs)
    have hqs : ∀ x ∈ qs, 0 ≤ x := fun x hx => hq x (List.mem_cons_of_mem _ hx)
    have hs : 0 ≤ qs.sum := List.sum_nonneg hqs
    rw [List.foldl_cons]
    have hcell : add_to_cart (some (toString v)) q =
        some (toString (min (v + q) 10)) := by
      rw [add_to_cart, readStored_roundtrip v h0 h10]
    rw [hcell, ih (min (v + q) 10) hqs (le_min (by omega) (by omega))
      (min_le_right _ _), List.sum_cons]
    rcases le_total (v + q) 10 with h | h
    · rw [min_eq_left h, add_assoc]
    · rw [min_eq_right h,
        min_eq_left (show (10 : Int) ≤ 10 + qs.sum by omega),
        min_eq_left (show (10 : Int) ≤ v + (q + qs.sum) by omega)]

/-! ### The claims -/

/-- C1: the claim that terminal orders admit no further transitions fails on
the code.  In `dbTerminal` order 1 is `cancelled`, yet `assign_executor`
(as run by `retry_assign_executor`) succeeds and moves it to
`awaiting_executor_confirmation`; in `dbTerminalAssigned` order 1 is
`cancelled` and assigned to executor 1, and the executor's confirm-payment
handler moves it to `in_progress`.  Neither operation checks the current
status. -/
theorem terminal_status_not_preserved :
    (findOrder dbTerminal 1).map Order.status = some ORDER_STATUS_CANCELLED ∧
    (assign_executor dbTerminal 1).map
        (fun p => ((findOrder p.1 1).map Order.status, p.2)) =
      some (some ORDER_STATUS_AWAITING_CONFIRMATION, true) ∧
    (findOrder dbTerminalAssigned 1).map Order.status =
      some ORDER_STATUS_CANCELLED ∧
    (findOrder (executor_confirm_payment dbTerminalAssigned 100 1) 1).map
        Order.status = some ORDER_STATUS_IN_PROGRESS := by
  decide

/-- C2: when the payment-timeout watchdog wakes it re-reads the order and
cancels exactly when the order still exists with status `pending_payment`
and an unset payment flag (other orders and the user table untouched); when
the order is missing, has moved on, or is already confirmed, it changes
nothing. -/
theorem watchdog_cancel_iff (db : DB) (oid : Nat) :
    (∀ o, findOrder db oid = some o →
      o.status = ORDER_STATUS_PENDING_PAYMENT →
      o.payment_confirmed_by_user = false →
      findOrder (check_payment_timeout db oid) oid =
        some { o with status := ORDER_STATUS_CANCELLED } ∧
      (∀ oid2, oid2 ≠ oid →
        findOrder (check_payment_timeout db oid) oid2 = findOrder db oid2) ∧
      (check_payment_timeout db oid).users = db.users) ∧
    (findOrder db oid = none → check_payment_timeout db oid = db) ∧
    (∀ o, findOrder db oid = some o →
      o.status ≠ ORDER_STATUS_PENDING_PAYMENT ∨
        o.payment_confirmed_by_user = true →
      check_payment_timeout db oid = db) := by
  refine ⟨?_, fun ho => check_payment_timeout_none db oid ho, ?_⟩
  · intro o ho hst hfl
    have hb : (o.status == ORDER_STATUS_PENDING_PAYMENT
        && !o.payment_confirmed_by_user) = true := by
      rw [hst, hfl]
      rfl
    have hcpt : check_payment_timeout db oid =
        update_order_status db oid ORDER_STATUS_CANCELLED := by
      rw [check_payment_timeout_some db oid o ho, if_pos hb]
    refine ⟨?_, ?_, ?_⟩
    · rw [hcpt]
      exact findOrder_updateOrderById_self db oid
        (fun x => { x with status := ORDER_STATUS_CANCELLED }) (fun x => rfl) o ho
    · intro oid2 hne
      rw [hcpt]
      exact findOrder_updateOrderById_of_ne db oid oid2
        (fun x => { x with status := ORDER_STATUS_CANCELLED }) (fun x => rfl) hne
    · rw [hcpt]
      rfl
  · intro o ho hother
    have hb : ¬ ((o.status == ORDER_STATUS_PENDING_PAYMENT
        && !o.payment_confirmed_by_user) = true) := by
      rw [Bool.and_eq_true]
      rintro ⟨h1, h2⟩
      rcases hother with h | h
      · exact h (by simpa using h1)
      · rw [h] at h2
        cases h2
    rw [check_payment_timeout_some db oid o ho, if_neg hb]

/-- Witness for C2: in `dbPending` the pending, unconfirmed order 1 is
cancelled by the watchdog. -/
theorem watchdog_cancel_iff_witness :
    findOrder (check_payment_timeout dbPending 1) 1 =
      some { orderPending with status := ORDER_STATUS_CANCELLED } :=
  ((watchdog_cancel_iff dbPending 1).1 orderPending rfl rfl rfl).1

/-- C3: under the reachable-state invariant that in-progress orders are
assigned, `assign_executor` returns failure and leaves the store untouched
when no free executor exists, and otherwise assigns some free executor to
the (existing) order, advances it to `awaiting_executor_confirmation`,
leaves everything else unchanged and returns success. -/
theorem assign_executor_spec (db : DB) (oid : Nat)
    (hinv : inProgressAssigned db) :
    ((∀ u ∈ db.users, ¬ isFreeExecutor db u) →
      assign_executor db oid = some (db, false)) ∧
    ((∃ u ∈ db.users, isFreeExecutor db u) →
      ∀ o, findOrder db oid = some o →
      ∃ u db2, u ∈ db.users ∧ isFreeExecutor db u ∧
        assign_executor db oid = some (db2, true) ∧
        findOrder db2 oid = some { o with
                                   executor_id := some u.id,
                                   status := ORDER_STATUS_AWAITING_CONFIRMATION } ∧
        (∀ oid2, oid2 ≠ oid → findOrder db2 oid2 = findOrder db oid2) ∧
        db2.users = db.users) := by
  constructor
  · intro h
    unfold assign_executor
    rw [findFreeExecutor_spec_none db h]
  · intro hex o ho
    obtain ⟨u, hfind, hu, hfree⟩ := findFreeExecutor_spec_some db hinv hex
    refine ⟨u, _, hu, hfree, assign_executor_found db oid u o hfind ho, ?_, ?_, rfl⟩
    · exact findOrder_updateOrderById_self db oid
        (fun x => { x with executor_id := some u.id,
                           status := ORDER_STATUS_AWAITING_CONFIRMATION })
        (fun x => rfl) o ho
    · intro oid2 h2
      exact findOrder_updateOrderById_of_ne db oid oid2
        (fun x => { x with executor_id := some u.id,
                           status := ORDER_STATUS_AWAITING_CONFIRMATION })
        (fun x => rfl) h2

/-- Witness for C3: in `dbPending` executor 1 is free, so order 1 is
assigned and advanced. -/
theorem assign_executor_spec_witness :
    ∃ u db2, u ∈ dbPending.users ∧ isFreeExecutor dbPending u ∧
      assign_executor dbPending 1 = some (db2, true) ∧
      findOrder db2 1 = some { orderPending with
                               executor_id := some u.id,
                               status := ORDER_STATUS_AWAITING_CONFIRMATION } ∧
      (∀ oid2, oid2 ≠ 1 → findOrder db2 oid2 = findOrder dbPending oid2) ∧
      db2.users = dbPending.users :=
  (assign_executor_spec dbPending 1 (by decide)).2 (by decide) orderPending
    (by decide)

/-- C4 counterexample: in `dbReassign` order 1 already has executor 1; a
second `assign_executor` run succeeds and replaces the assignment with
executor 2 — neither a no-op nor an already-assigned error. -/
theorem assign_reassigns_executor :
    (findOrder dbReassign 1).map Order.executor_id = some (some 1) ∧
    (assign_executor dbReassign 1).map
        (fun p => ((findOrder p.1 1).map Order.executor_id, p.2)) =
      some (some (some 2), true) := by
  decide

/-- C4 amended: `assign_executor` performs no already-assigned check; a
repeat run overwrites the order's executor with whatever free executor the
search returns, so the original executor is retained exactly when the
search picks that executor again (then the executor field is unchanged),
and otherwise a different executor is silently assigned. -/
theorem assign_executor_overwrites (db : DB) (oid : Nat) (u : User) (o : Order)
    (hu : findFreeExecutor db = some u) (ho : findOrder db oid = some o) :
    ∃ db2, assign_executor db oid = some (db2, true) ∧
      findOrder db2 oid = some { o with
                                 executor_id := some u.id,
                                 status := ORDER_STATUS_AWAITING_CONFIRMATION } ∧
      (o.executor_id = some u.id →
        findOrder db2 oid =
          some { o with status := ORDER_STATUS_AWAITING_CONFIRMATION }) := by
  refine ⟨_, assign_executor_found db oid u o hu ho, ?_, ?_⟩
  · exact findOrder_updateOrderById_self db oid
      (fun x => { x with executor_id := some u.id,
                         status := ORDER_STATUS_AWAITING_CONFIRMATION })
      (fun x => rfl) o ho
  · intro hsame
    rw [findOrder_updateOrderById_self db oid
      (fun x => { x with executor_id := some u.id,
                         status := ORDER_STATUS_AWAITING_CONFIRMATION })
      (fun x => rfl) o ho]
    rw [show ({ o with
                executor_id := some u.id,
                status := ORDER_STATUS_AWAITING_CONFIRMATION } : Order) =
      { o with status := ORDER_STATUS_AWAITING_CONFIRMATION } from by
        rw [← hsame]]

/-- Witness for C4's amended claim: in `dbReassign` the search returns
executor 2 and order 1 ends up reassigned to it. -/
theorem assign_executor_overwrites_witness :
    ∃ db2, assign_executor dbReassign 1 = some (db2, true) ∧
      findOrder db2 1 = some { orderAssigned1 with
                               executor_id := some userExec2.id,
                               status := ORDER_STATUS_AWAITING_CONFIRMATION } ∧
      (orderAssigned1.executor_id = some userExec2.id →
        findOrder db2 1 = some { orderAssigned1 with
                                 status := ORDER_STATUS_AWAITING_CONFIRMATION }) :=
  assign_executor_overwrites dbReassign 1 userExec2 orderAssigned1
    (by decide) (by decide)
/-- C5 counterexample: its second conjunct fails on the code.  In
`dbTerminal` order 1 is `cancelled` with the flag unset, yet
`confirm_user_payment` flips the flag to true: the false→true transition is
not restricted to `pending_payment`. -/
theorem confirm_payment_ignores_status :
    (findOrder dbTerminal 1).map Order.status = some ORDER_STATUS_CANCELLED ∧
    (findOrder dbTerminal 1).map Order.payment_confirmed_by_user =
      some false ∧
    (findOrder (confirm_user_payment dbTerminal 1) 1).map
        Order.payment_confirmed_by_user = some true := by
  decide

/-- C5 amended: `payment_confirmed_by_user` only ever transitions
false→true — every modelled operation preserves a true flag and nothing
resets it — but `confirm_user_payment` sets it unconditionally, with no
check that the order's status is `pending_payment`. -/
theorem payment_flag_monotone (db : DB) (oid : Nat) (st : String) (tg : Int)
    (role : String) :
    FlagMono db (update_order_status db oid st) ∧
    FlagMono db (confirm_user_payment db oid) ∧
    (∀ db2 b, assign_executor db oid = some (db2, b) → FlagMono db db2) ∧
    (∀ db2, retry_assign_executor db oid = some db2 → FlagMono db db2) ∧
    FlagMono db (check_payment_timeout db oid) ∧
    FlagMono db (set_user db tg role).1 ∧
    FlagMono db (executor_confirm_payment db tg oid) ∧
    (∀ o, findOrder db oid = some o →
      findOrder (confirm_user_payment db oid) oid =
        some { o with payment_confirmed_by_user := true }) := by
  refine ⟨?_, ?_, ?_, ?_, ?_, ?_, ?_, ?_⟩
  · exact flagMono_updateOrderById db oid _ (fun x => rfl) (fun x hx => hx)
  · exact flagMono_updateOrderById db oid _ (fun x => rfl) (fun x hx => rfl)
  · intro db2 b hab
    exact flagMono_assign db oid db2 b hab
  · intro db2 hr
    unfold retry_assign_executor at hr
    cases ha : assign_executor db oid with
    | none =>
      rw [ha] at hr
      cases hr
    | some p =>
      rw [ha] at hr
      obtain ⟨dbx, bx⟩ := p
      cases bx
      · have h2 : update_order_status dbx oid ORDER_STATUS_CANCELLED = db2 :=
          Option.some.inj hr
        have hdbx : dbx = db := assign_executor_failed db oid dbx ha
        rw [← h2, hdbx]
        exact flagMono_updateOrderById db oid _ (fun x => rfl) (fun x hx => hx)
      · have h2 : dbx = db2 := Option.some.inj hr
        rw [← h2]
        exact flagMono_assign db oid dbx true ha
  · cases ho : findOrder db oid with
    | none =>
      rw [check_payment_timeout_none db oid ho]
      exact flagMono_of_orders_eq db db rfl
    | some o =>
      rw [check_payment_timeout_some db oid o ho]
      by_cases hb : (o.status == ORDER_STATUS_PENDING_PAYMENT
          && !o.payment_confirmed_by_user) = true
      · rw [if_pos hb]
        exact flagMono_updateOrderById db oid _ (fun x => rfl) (fun x hx => hx)
      · rw [if_neg hb]
        exact flagMono_of_orders_eq db db rfl
  · unfold set_user
    cases hfu : findUserByTg db tg with
    | some v => exact flagMono_of_orders_eq db db rfl
    | none => exact flagMono_of_orders_eq db _ rfl
  · unfold executor_confirm_payment
    cases ho : findOrder db oid with
    | none => exact flagMono_of_orders_eq db db rfl
    | some o =>
      cases hfu : findUserByTg db tg with
      | none => exact flagMono_of_orders_eq db db rfl
      | some ex =>
        dsimp only
        by_cases hid : (o.executor_id == some ex.id) = true
        · rw [if_pos hid]
          exact flagMono_updateOrderById db oid _ (fun x => rfl) (fun x hx => hx)
        · rw [if_neg hid]
          exact flagMono_of_orders_eq db db rfl
  · intro o ho
    exact findOrder_updateOrderById_self db oid
      (fun x => { x with payment_confirmed_by_user := true }) (fun x => rfl) o ho

/-- Witness for C5's amended claim: a confirmed flag survives
`confirm_user_payment` on `dbPending`. -/
theorem payment_flag_monotone_witness :
    FlagMono dbPending (confirm_user_payment dbPending 1) :=
  (payment_flag_monotone dbPending 1 ORDER_STATUS_CANCELLED 0 "Client").2.1

/-- C6: starting from an empty cart entry, N adds of quantities q1..qN
(each ≥ 1) leave exactly min(10, q1+...+qN) stored, and each single add
writes min(current + qty, 10) — the cap clamps instead of erroring. -/
theorem add_to_cart_clamps (qs : List Int) (hq : ∀ q ∈ qs, 1 ≤ q) :
    readStoredQty (qs.foldl add_to_cart none) = min 10 qs.sum ∧
    ∀ cell q, add_to_cart cell q =
      some (toString (min (readStoredQty cell + q) 10)) := by
  refine ⟨?_, fun cell q => rfl⟩
  cases qs with
  | nil => decide
  | cons q qs =>
    have hq0 : 1 ≤ q := hq q (List.mem_cons_self q qs)
    have hqs : ∀ x ∈ qs, 0 ≤ x := fun x hx =>
      le_trans zero_le_one (hq x (List.mem_cons_of_mem _ hx))
    have hs : 0 ≤ qs.sum := List.sum_nonneg hqs
    rw [List.foldl_cons]
    have hcell : add_to_cart none q = some (toString (min (0 + q) 10)) := rfl
    rw [hcell, add_fold_from qs (min (0 + q) 10) hqs (le_min (by omega) (by omega))
      (min_le_right _ _), List.sum_cons, zero_add]
    rcases le_total q 10 with h | h
    · rw [min_eq_left h]
    · rw [min_eq_right h,
        min_eq_left (show (10 : Int) ≤ 10 + qs.sum by omega),
        min_eq_left (show (10 : Int) ≤ q + qs.sum by omega)]

/-- Witness for C6 at the spec scenario: adding 7 then 5 stores 10,
not 12. -/
theorem add_to_cart_clamps_witness :
    readStoredQty ([7, 5].foldl add_to_cart none) = 10 := by
  have h := (add_to_cart_clamps [7, 5] (by decide)).1
  simpa using h

/-- C7 counterexample: its "integer ≥ 0" part fails for a stored negative
numeral — `int("-5")` parses, so `get_cart_item_qty` returns -5. -/
theorem cart_qty_negative :
    get_cart_item_qty (some "-5") = -5 ∧
    ¬ (0 ≤ get_cart_item_qty (some "-5")) := by
  decide

/-- C7 amended: `get_cart_item_qty` never raises (it is total) and returns
0 when the entry is missing or the stored value is malformed; when the
stored string parses as an integer that value is returned as-is, so the
result is ≥ 0 unless the stored string encodes a negative integer. -/
theorem get_cart_item_qty_spec :
    get_cart_item_qty none = 0 ∧
    (∀ s, pyInt? s = none → get_cart_item_qty (some s) = 0) ∧
    (∀ s v, pyInt? s = some v → get_cart_item_qty (some s) = v) ∧
    (∀ s v, pyInt? s = some v → 0 ≤ v → 0 ≤ get_cart_item_qty (some s)) := by
  refine ⟨rfl, ?_, ?_, ?_⟩
  · intro s hp
    exact readStored_malformed s hp
  · intro s v hp
    exact readStored_parse s v hp
  · intro s v hp hv
    rw [get_cart_item_qty, readStored_parse s v hp]
    exact hv

/-- Witness for C7's amended claim: a well-formed stored "7" reads back
as 7. -/
theorem get_cart_item_qty_spec_witness :
    get_cart_item_qty (some "7") = 7 :=
  get_cart_item_qty_spec.2.2.1 "7" 7 (by decide)

/-- C8 counterexample: with zero items in the store, `update_prices`
returns before touching the cache, so a stale mapping survives instead of
being replaced by the empty mapping the claim requires. -/
theorem update_prices_keeps_stale_on_empty :
    update_prices [] [(1, 100)] = [(1, 100)] ∧
    update_prices [] [(1, 100)] ≠ specPriceMapping [] := by
  decide

/-- C8 amended: when the store holds at least one item, a successful
`update_prices` replaces the cached mapping by item-id→price over exactly
the items read; when the store holds zero items it returns early and the
previous cached mapping is left untouched. -/
theorem update_prices_spec (storeItems : List Item)
    (prices : List (Nat × Int)) :
    (storeItems ≠ [] →
      update_prices storeItems prices = specPriceMapping storeItems) ∧
    (storeItems = [] → update_prices storeItems prices = prices) := by
  constructor
  · intro h
    unfold update_prices
    rw [if_neg h]
    rfl
  · intro h
    unfold update_prices
    rw [if_pos h]

/-- Witness for C8's amended claim on a one-item store. -/
theorem update_prices_spec_witness :
    update_prices [itemC] [(1, 100)] = specPriceMapping [itemC] :=
  (update_prices_spec [itemC] [(1, 100)]).1 (by decide)

/-- C9: on a cache hit `get_items_by_category` returns the deserialized
snapshots sorted by id ascending and writes nothing; on a miss it returns
the store's rows for the category in store order, and caches the full set
with the fixed TTL exactly when that result is non-empty. -/
theorem get_items_by_category_spec (category_id : Nat)
    (cached : List (Nat × ItemSnapshot)) (store : List Item) :
    (cached ≠ [] →
      (get_items_by_category category_id cached store).cacheWrite = none ∧
      (get_items_by_category category_id cached store).items.Perm
        (cached.map (fun p => itemOfSnapshot category_id p.2)) ∧
      List.Sorted idLe (get_items_by_category category_id cached store).items) ∧
    (cached = [] →
      (get_items_by_category category_id cached store).items =
        store.filter (fun it => it.category_id == category_id) ∧
      ((get_items_by_category category_id cached store).items ≠ [] →
        (get_items_by_category category_id cached store).cacheWrite =
          some ((store.filter (fun it => it.category_id == category_id)).map
            (fun it => (it.id, snapshotOfItem it)), ITEMS_TTL)) ∧
      ((get_items_by_category category_id cached store).items = [] →
        (get_items_by_category category_id cached store).cacheWrite = none)) := by
  constructor
  · intro h
    have hres : get_items_by_category category_id cached store =
        { items := List.insertionSort idLe
            (cached.map (fun p => itemOfSnapshot category_id p.2)),
          cacheWrite := none } := by
      unfold get_items_by_category
      rw [if_pos h]
    rw [hres]
    exact ⟨rfl, List.perm_insertionSort idLe _, List.sorted_insertionSort idLe _⟩
  · intro h
    by_cases hq : store.filter (fun it => it.category_id == category_id) = []
    · have hres : get_items_by_category category_id cached store =
          { items := store.filter (fun it => it.category_id == category_id),
            cacheWrite := none } := by
        unfold get_items_by_category
        rw [if_neg (by simpa using h), if_pos hq]
      rw [hres]
      exact ⟨rfl, fun hne => absurd hq hne, fun _ => rfl⟩
    · have hres : get_items_by_category category_id cached store =
          { items := store.filter (fun it => it.category_id == category_id),
            cacheWrite := some
              ((store.filter (fun it => it.category_id == category_id)).map
                (fun it => (it.id, snapshotOfItem it)), ITEMS_TTL) } := by
        unfold get_items_by_category
        rw [if_neg (by simpa using h), if_neg hq]
      rw [hres]
      exact ⟨rfl, fun _ => rfl, fun he => absurd he hq⟩

/-- Witness for C9 on a hit with the cache out of id order: the result is a
sorted permutation of the deserialized snapshots and nothing is written. -/
theorem get_items_by_category_spec_witness :
    (get_items_by_category 5 [(2, snapB), (1, snapA)] []).cacheWrite = none ∧
    (get_items_by_category 5 [(2, snapB), (1, snapA)] []).items.Perm
      ([(2, snapB), (1, snapA)].map (fun p => itemOfSnapshot 5 p.2)) ∧
    List.Sorted idLe (get_items_by_category 5 [(2, snapB), (1, snapA)] []).items :=
  (get_items_by_category_spec 5 [(2, snapB), (1, snapA)] []).1 (by decide)

/-- C10: `set_user` on an already-registered `tg_id` returns `False` and
leaves the store — the stored role included — unchanged, whatever role the
call (for instance the /executor command) requested. -/
theorem set_user_existing (db : DB) (tg : Int) (role : String) (u : User)
    (hu : u ∈ db.users) (htg : u.tg_id = tg) :
    set_user db tg role = (db, false) := by
  have hsome : (findUserByTg db tg).isSome := by
    rw [findUserByTg, List.find?_isSome]
    exact ⟨u, hu, by simp [htg]⟩
  unfold set_user
  cases hfu : findUserByTg db tg with
  | none =>
    rw [hfu] at hsome
    simp at hsome
  | some v => rfl

/-- Witness for C10: re-registering tg 100 of `dbTerminal` as an executor
returns `False` and changes nothing. -/
theorem set_user_existing_witness :
    set_user dbTerminal 100 "Executor" = (dbTerminal, false) :=
  set_user_existing dbTerminal 100 "Executor"
    { id := 1, tg_id := 100, role := "Executor" } (by decide) rfl

end OnlineShop
